import Mathlib

/-!
Shallow embedding of the karma-ledger core of the Dis-karm repository
(src/bot.py and src/config.py).

Modelling conventions:
* Timestamps are integers (seconds).  Python `datetime.now()` values become
  explicit `now : Int` parameters; `timedelta` values become `Int` seconds.
* The SQLite table `karma` (primary key `(user_id, guild_id)`) is a list of
  rows in table (insertion/rowid) order, with at most one row per key; the
  upsert of `update_karma` updates the keyed row in place or appends a new
  row, mirroring rowid behaviour.
* The `karma_history` table is an append-only list; `bot.cooldowns` (a Python
  dict) is an association list from actor id to last-action time.
* Python integer floor division `//` is `Int.fdiv`.
* Python list indexing `l[i]` (with negative-index wraparound and IndexError)
  is `pyIndex`, returning `none` for an out-of-range index.
-/

namespace DisKarm

/-- Constant `Config.COOLDOWN_SECONDS` from src/config.py. -/
def COOLDOWN_SECONDS : Int := 60

/-- Constant `Config.LEVEL_INTERVAL` from src/config.py. -/
def LEVEL_INTERVAL : Int := 50

/-- List `KarmaEmojis.LEVELS` from src/bot.py: the five level emojis. -/
def LEVELS : List String := ["⭐", "🌟", "✨", "💫", "☄️"]

/-- List `KarmaEmojis.REACTIONS` from src/bot.py: emojis that trigger a +1 grant. -/
def REACTIONS : List String := ["👍", "❤️", "🎉", "🔥", "👏"]

/-- A row of the `karma` table (src/bot.py, `init_db`):
`(user_id, guild_id)` is the primary key. -/
structure KarmaRow where
  user_id : Nat
  guild_id : Nat
  karma : Int
  last_updated : Int
deriving DecidableEq

/-- A row of the append-only `karma_history` table (src/bot.py, `init_db`). -/
structure KarmaEvent where
  user_id : Nat
  guild_id : Nat
  change : Int
  reason : Option String
  timestamp : Int
deriving DecidableEq

/-- The state the claims are about: the `karma` table, the `karma_history`
table and the in-memory `bot.cooldowns` dict of src/bot.py. -/
structure BotState where
  karma : List KarmaRow
  karma_history : List KarmaEvent
  cooldowns : List (Nat × Int)
deriving DecidableEq

/-- Whether a row has the given primary key, mirroring the SQL predicate
`user_id = ? AND guild_id = ?`. -/
def rowMatches (r : KarmaRow) (u g : Nat) : Bool :=
  r.user_id == u && r.guild_id == g

/-- Points stored for a key, 0 when no row exists — the `karma` component of
`KarmaManager.get_karma` (src/bot.py), which defaults a missing row to 0. -/
def getPoints : List KarmaRow → Nat → Nat → Int
  | [], _, _ => 0
  | r :: rs, u, g => if rowMatches r u g then r.karma else getPoints rs u g

/-- Whether the `karma` table has a row for the key. -/
def hasRow (rows : List KarmaRow) (u g : Nat) : Bool :=
  rows.any (fun r => rowMatches r u g)

/-- The row returned by `SELECT ... FROM karma WHERE user_id = ? AND
guild_id = ?` (the key is the primary key, so at most one row). -/
def rowFind : List KarmaRow → Nat → Nat → Option KarmaRow
  | [], _, _ => none
  | r :: rs, u, g => if rowMatches r u g then some r else rowFind rs u g

/-- `KarmaManager.get_karma` (src/bot.py): returns the stored points (0 when
the row is missing) and the `last_updated` stamp (`none` when missing). -/
def get_karma (st : BotState) (u g : Nat) : Int × Option Int :=
  match rowFind st.karma u g with
  | some r => (r.karma, some r.last_updated)
  | none => (0, none)

/-- The upsert of `KarmaManager.update_karma` (src/bot.py):
`INSERT ... ON CONFLICT(user_id, guild_id) DO UPDATE SET
karma = karma + excluded.karma, last_updated = excluded.last_updated`.
The keyed row is updated in place when present, otherwise a fresh row holding
`delta` is inserted (appended, matching rowid order). -/
def upsertKarma (u g : Nat) (delta : Int) (now : Int) : List KarmaRow → List KarmaRow
  | [] => [⟨u, g, delta, now⟩]
  | r :: rs =>
    if rowMatches r u g then ⟨r.user_id, r.guild_id, r.karma + delta, now⟩ :: rs
    else r :: upsertKarma u g delta now rs

/-- `KarmaManager.calculate_level` (src/bot.py):
`min(karma // Config.LEVEL_INTERVAL, len(KarmaEmojis.LEVELS)-1)`.
Python `//` is floor division, hence `Int.fdiv`. -/
def calculate_level (karma : Int) : Int :=
  min (Int.fdiv karma LEVEL_INTERVAL) ((LEVELS.length : Int) - 1)

/-- Result dict of `KarmaManager.update_karma`: `{"new_karma": ..., "level": ...}`. -/
structure UpdateResult where
  new_karma : Int
  level : Int
deriving DecidableEq

/-- `KarmaManager.update_karma` (src/bot.py): upserts the `karma` row
(`RETURNING karma` yields the new total), appends one `karma_history` event
with the same delta and reason, and returns the new total with its level. -/
def update_karma (st : BotState) (u g : Nat) (delta : Int) (reason : Option String)
    (now : Int) : BotState × UpdateResult :=
  let rows := upsertKarma u g delta now st.karma
  let newKarma := getPoints rows u g
  (⟨rows, st.karma_history ++ [⟨u, g, delta, reason, now⟩], st.cooldowns⟩,
   ⟨newKarma, calculate_level newKarma⟩)

/-- One call to `update_karma`, as abstracted over by claim C1:
a target key, a delta, a reason and the operation time. -/
structure Op where
  user_id : Nat
  guild_id : Nat
  delta : Int
  reason : Option String
  time : Int
deriving DecidableEq

/-- Folding a sequence of `update_karma` calls over a state. -/
def applyOps (st : BotState) (ops : List Op) : BotState :=
  ops.foldl (fun s o => (update_karma s o.user_id o.guild_id o.delta o.reason o.time).1) st

/-- Sum of the deltas of the operations addressed to the key `(u, g)`. -/
def sumDeltas (ops : List Op) (u g : Nat) : Int :=
  ((ops.filter (fun o => o.user_id == u && o.guild_id == g)).map (fun o => o.delta)).sum

/-- Python list indexing `l[i]`: a non-negative index reads from the front,
a negative index `i` reads element `len(l) + i`, and anything out of range is
an `IndexError`, modelled as `none`. -/
def pyIndex (l : List String) (i : Int) : Option String :=
  if 0 ≤ i then l.get? i.toNat
  else if 0 ≤ (l.length : Int) + i then l.get? ((l.length : Int) + i).toNat
  else none

/-- The level-emoji lookup `KarmaEmojis.LEVELS[level]` performed by
`karma_check` (src/bot.py) on a stored points total. -/
def levelEmojiLookup (points : Int) : Option String :=
  pyIndex LEVELS (calculate_level points)

/-- Ordering used by the leaderboard query: karma descending. -/
def karmaDescR (a b : KarmaRow) : Prop := b.karma ≤ a.karma

instance : DecidableRel karmaDescR := fun _ _ => Int.decLe _ _

instance : IsTotal KarmaRow karmaDescR := ⟨fun a b => le_total b.karma a.karma⟩

instance : IsTrans KarmaRow karmaDescR := ⟨fun _ _ _ h1 h2 => le_trans h2 h1⟩

/-- `KarmaManager.get_leaderboard` (src/bot.py):
`SELECT user_id, karma FROM karma WHERE guild_id = ? ORDER BY karma DESC
LIMIT ?`.  The query orders by `karma` alone — it names no secondary sort
key — so rows of equal karma keep their table order, modelled by a stable
insertion sort; `LIMIT` is `take`. -/
def get_leaderboard (st : BotState) (guild_id : Nat) (limit : Nat) : List (Nat × Int) :=
  ((List.insertionSort karmaDescR (st.karma.filter (fun r => r.guild_id == guild_id))).map
    (fun r => (r.user_id, r.karma))).take limit

/-- Lookup in the `bot.cooldowns` dict. -/
def lookupCooldown (cds : List (Nat × Int)) (user_id : Nat) : Option Int :=
  (cds.find? (fun p => p.1 == user_id)).map (fun p => p.2)

/-- The dict write `bot.cooldowns[user_id] = now`. -/
def setCooldown (user_id : Nat) (now : Int) : List (Nat × Int) → List (Nat × Int)
  | [] => [(user_id, now)]
  | p :: ps => if p.1 == user_id then (user_id, now) :: ps else p :: setCooldown user_id now ps

/-- `check_cooldown` (src/bot.py): `none` when the actor has no recorded
action or the cooldown window has elapsed, otherwise the remaining wait. -/
def check_cooldown (cds : List (Nat × Int)) (user_id : Nat) (now : Int) : Option Int :=
  match lookupCooldown cds user_id with
  | none => none
  | some last =>
    if now - last < COOLDOWN_SECONDS then some (COOLDOWN_SECONDS - (now - last)) else none

/-- Observable outcome of the `karma give` / `karma remove` commands:
the self-target rejection, the cooldown rejection (with remaining wait), or
success with the new total and level (src/bot.py, `karma_give`/`karma_remove`). -/
inductive GiveOutcome where
  | selfTarget : GiveOutcome
  | cooldownActive (remaining : Int) : GiveOutcome
  | success (new_karma level : Int) : GiveOutcome
deriving DecidableEq

/-- Whether an outcome is a success. -/
def isSuccess : GiveOutcome → Bool
  | .success _ _ => true
  | _ => false

/-- `karma_give` (src/bot.py): rejects `target == actor`, then consults
`check_cooldown`; otherwise applies `+amount` via `update_karma` and records
the actor's cooldown. -/
def karma_give (st : BotState) (actor target guild : Nat) (amount : Int)
    (reason : Option String) (now : Int) : BotState × GiveOutcome :=
  if target == actor then (st, .selfTarget)
  else
    match check_cooldown st.cooldowns actor now with
    | some remaining => (st, .cooldownActive remaining)
    | none =>
      let p := update_karma st target guild amount reason now
      (⟨p.1.karma, p.1.karma_history, setCooldown actor now p.1.cooldowns⟩,
       .success p.2.new_karma p.2.level)

/-- `karma_remove` (src/bot.py): identical to `karma_give` with `-amount`. -/
def karma_remove (st : BotState) (actor target guild : Nat) (amount : Int)
    (reason : Option String) (now : Int) : BotState × GiveOutcome :=
  if target == actor then (st, .selfTarget)
  else
    match check_cooldown st.cooldowns actor now with
    | some remaining => (st, .cooldownActive remaining)
    | none =>
      let p := update_karma st target guild (-amount) reason now
      (⟨p.1.karma, p.1.karma_history, setCooldown actor now p.1.cooldowns⟩,
       .success p.2.new_karma p.2.level)

/-- `admin_set` (src/bot.py): reads the current total, applies
`delta = amount - current` via `update_karma` (no self-target or cooldown
check), and reports the delta. -/
def admin_set (st : BotState) (target guild : Nat) (amount : Int)
    (reason : Option String) (now : Int) : BotState × Int :=
  let current := (get_karma st target guild).1
  let delta := amount - current
  ((update_karma st target guild delta (some (reason.getD "Admin adjustment")) now).1, delta)

/-- `SuperKarmaBot.cleanup_task` (src/bot.py):
`DELETE FROM karma_history WHERE timestamp < datetime('now', '-30 days')`.
30 days is 2592000 seconds; only the history table is touched. -/
def cleanup_task (st : BotState) (now : Int) : BotState :=
  ⟨st.karma, st.karma_history.filter (fun e => !(e.timestamp < now - 2592000)), st.cooldowns⟩

/-- `on_raw_reaction_add` (src/bot.py): on a recognized emoji, a reaction by
the message author itself is ignored; otherwise the author receives +1 (no
cooldown is consulted) and the returned flag says whether the level-up DM is
sent, i.e. whether `new_level > old_level` for
`old_level = new_level - 1 if new_karma > 1 else 0`. -/
def on_raw_reaction_add (st : BotState) (reactor author guild : Nat) (emoji : String)
    (now : Int) : BotState × Bool :=
  if REACTIONS.contains emoji then
    if reactor == author then (st, false)
    else
      let p := update_karma st author guild 1 (some ("Received " ++ emoji ++ " reaction")) now
      let new_level := calculate_level p.2.new_karma
      let old_level := if p.2.new_karma > 1 then new_level - 1 else 0
      (p.1, decide (new_level > old_level))
  else (st, false)

/-! ### Basic lemmas about the ledger operations -/

theorem getPoints_upsert_self (u g : Nat) (delta now : Int) (rows : List KarmaRow) :
    getPoints (upsertKarma u g delta now rows) u g = getPoints rows u g + delta := by
  induction rows with
  | nil => simp [upsertKarma, getPoints, rowMatches]
  | cons r rs ih =>
    by_cases h : rowMatches r u g = true
    · have h2 : rowMatches ⟨r.user_id, r.guild_id, r.karma + delta, now⟩ u g = true := h
      simp [upsertKarma, getPoints, h, h2]
    · simp [upsertKarma, getPoints, h, ih]

theorem getPoints_upsert_other (u g u' g' : Nat) (delta now : Int) (rows : List KarmaRow)
    (h : ¬(u = u' ∧ g = g')) :
    getPoints (upsertKarma u' g' delta now rows) u g = getPoints rows u g := by
  induction rows with
  | nil =>
    have hf : rowMatches ⟨u', g', delta, now⟩ u g = false := by
      simp [rowMatches]
      omega
    simp [upsertKarma, getPoints, hf]
  | cons r rs ih =>
    by_cases hr : rowMatches r u' g' = true
    · have hr' : r.user_id = u' ∧ r.guild_id = g' := by simpa [rowMatches] using hr
      have hneq : rowMatches r u g = false := by
        simp [rowMatches, hr'.1, hr'.2]
        omega
      have hneq2 : rowMatches ⟨r.user_id, r.guild_id, r.karma + delta, now⟩ u g = false := hneq
      simp [upsertKarma, getPoints, hr, hneq, hneq2]
    · simp [upsertKarma, getPoints, hr, ih]

theorem hasRow_upsert_self (u g : Nat) (delta now : Int) (rows : List KarmaRow) :
    hasRow (upsertKarma u g delta now rows) u g = true := by
  induction rows with
  | nil => simp [upsertKarma, hasRow, rowMatches]
  | cons r rs ih =>
    by_cases h : rowMatches r u g = true
    · have h2 : rowMatches ⟨r.user_id, r.guild_id, r.karma + delta, now⟩ u g = true := h
      simp [upsertKarma, hasRow, h, h2]
    · simp [upsertKarma, hasRow, h, ih]
      simp [hasRow] at ih
      exact ih

theorem hasRow_upsert_other (u g u' g' : Nat) (delta now : Int) (rows : List KarmaRow)
    (h : ¬(u = u' ∧ g = g')) :
    hasRow (upsertKarma u' g' delta now rows) u g = hasRow rows u g := by
  induction rows with
  | nil =>
    have hf : rowMatches ⟨u', g', delta, now⟩ u g = false := by
      simp [rowMatches]
      omega
    simp [upsertKarma, hasRow, hf]
  | cons r rs ih =>
    by_cases hr : rowMatches r u' g' = true
    · have hr' : r.user_id = u' ∧ r.guild_id = g' := by simpa [rowMatches] using hr
      have hneq : rowMatches r u g = false := by
        simp [rowMatches, hr'.1, hr'.2]
        omega
      have hneq2 : rowMatches ⟨r.user_id, r.guild_id, r.karma + delta, now⟩ u g = false := hneq
      simp [upsertKarma, hasRow, hr, hneq, hneq2]
    · simp [upsertKarma, hasRow, hr]
      simp [hasRow] at ih
      rw [ih]

theorem getPoints_eq_zero_of_no_row (u g : Nat) (rows : List KarmaRow)
    (h : hasRow rows u g = false) : getPoints rows u g = 0 := by
  induction rows with
  | nil => simp [getPoints]
  | cons r rs ih =>
    simp [hasRow] at h
    have htail : hasRow rs u g = false := by
      simp [hasRow]
      exact h.2
    simp [getPoints, h.1, ih htail]

theorem get_karma_fst (st : BotState) (u g : Nat) :
    (get_karma st u g).1 = getPoints st.karma u g := by
  show (match rowFind st.karma u g with
    | some r => (r.karma, some r.last_updated)
    | none => ((0 : Int), (none : Option Int))).1 = getPoints st.karma u g
  induction st.karma with
  | nil => simp [rowFind, getPoints]
  | cons r rs ih =>
    by_cases h : rowMatches r u g = true
    · simp [rowFind, getPoints, h]
    · simp [rowFind, getPoints, h, ih]

theorem getPoints_applyOps (ops : List Op) (st : BotState) (u g : Nat) :
    getPoints (applyOps st ops).karma u g = getPoints st.karma u g + sumDeltas ops u g := by
  induction ops generalizing st with
  | nil => simp [applyOps, sumDeltas]
  | cons o os ih =>
    have hstep : applyOps st (o :: os) =
        applyOps (update_karma st o.user_id o.guild_id o.delta o.reason o.time).1 os := rfl
    have hk : (update_karma st o.user_id o.guild_id o.delta o.reason o.time).1.karma =
        upsertKarma o.user_id o.guild_id o.delta o.time st.karma := rfl
    rw [hstep, ih, hk]
    by_cases h : u = o.user_id ∧ g = o.guild_id
    · obtain ⟨h1, h2⟩ := h
      subst h1
      subst h2
      rw [getPoints_upsert_self]
      simp [sumDeltas]
      ring
    · rw [getPoints_upsert_other _ _ _ _ _ _ _ h]
      have hf : (o.user_id == u && o.guild_id == g) = false := by
        simp
        omega
      simp [sumDeltas, hf]

theorem hasRow_applyOps (ops : List Op) (st : BotState) (u g : Nat) :
    hasRow (applyOps st ops).karma u g =
      (hasRow st.karma u g || ops.any (fun o => o.user_id == u && o.guild_id == g)) := by
  induction ops generalizing st with
  | nil => simp [applyOps]
  | cons o os ih =>
    have hstep : applyOps st (o :: os) =
        applyOps (update_karma st o.user_id o.guild_id o.delta o.reason o.time).1 os := rfl
    have hk : (update_karma st o.user_id o.guild_id o.delta o.reason o.time).1.karma =
        upsertKarma o.user_id o.guild_id o.delta o.time st.karma := rfl
    rw [hstep, ih, hk]
    by_cases h : u = o.user_id ∧ g = o.guild_id
    · obtain ⟨h1, h2⟩ := h
      subst h1
      subst h2
      rw [hasRow_upsert_self]
      simp
    · rw [hasRow_upsert_other _ _ _ _ _ _ _ h]
      have hf : (o.user_id == u && o.guild_id == g) = false := by
        simp
        omega
      simp [hf]

/-- C1: for every sequence of `update_karma` (`apply_delta`) calls, arbitrarily
interleaved across (user, community) keys, the stored points of a key that was
absent initially end up equal to the sum of the deltas addressed to that key,
and the key's row exists afterwards exactly when some call addressed it (the
first such call creates it). -/
theorem c1_ledger_sum (st : BotState) (ops : List Op) (u g : Nat)
    (habs : hasRow st.karma u g = false) :
    getPoints (applyOps st ops).karma u g = sumDeltas ops u g ∧
    hasRow (applyOps st ops).karma u g =
      ops.any (fun o => o.user_id == u && o.guild_id == g) := by
  constructor
  · rw [getPoints_applyOps, getPoints_eq_zero_of_no_row u g st.karma habs, zero_add]
  · rw [hasRow_applyOps, habs, Bool.false_or]

/-- Witness for C1: a concrete run of three calls, two of them addressed to
the key (1, 7) with deltas 5 and -2, interleaved with a call to (2, 7). -/
theorem c1_ledger_sum_witness :
    getPoints (applyOps ⟨[], [], []⟩
        ([⟨1, 7, 5, some "helped", 0⟩, ⟨2, 7, 3, none, 1⟩, ⟨1, 7, -2, none, 2⟩] :
          List Op)).karma 1 7 =
      sumDeltas ([⟨1, 7, 5, some "helped", 0⟩, ⟨2, 7, 3, none, 1⟩, ⟨1, 7, -2, none, 2⟩] :
          List Op) 1 7 ∧
    hasRow (applyOps ⟨[], [], []⟩
        ([⟨1, 7, 5, some "helped", 0⟩, ⟨2, 7, 3, none, 1⟩, ⟨1, 7, -2, none, 2⟩] :
          List Op)).karma 1 7 =
      ([⟨1, 7, 5, some "helped", 0⟩, ⟨2, 7, 3, none, 1⟩, ⟨1, 7, -2, none, 2⟩] :
          List Op).any (fun o => o.user_id == 1 && o.guild_id == 7) :=
  c1_ledger_sum ⟨[], [], []⟩ _ 1 7 (by decide)

/-! ### The leveling function -/

theorem fdiv50_mono {a b : Int} (h : a ≤ b) : Int.fdiv a 50 ≤ Int.fdiv b 50 := by
  rw [Int.fdiv_eq_ediv _ (by norm_num), Int.fdiv_eq_ediv _ (by norm_num)]
  exact Int.ediv_le_ediv (by norm_num) h

theorem fdiv50_nonpos {a : Int} (h : a ≤ 1) : Int.fdiv a 50 ≤ 0 := by
  have := fdiv50_mono h
  simpa using this

/-- Counterexample to C2: Python `//` is floor division, so
`calculate_level(-1) = min(-1, 4) = -1`, which is negative — a negative
points value does not map to level 0 and the result is not in [0, 4]. -/
theorem c2_counterexample :
    calculate_level (-1) = -1 ∧ ¬(0 ≤ calculate_level (-1)) := by decide

/-- C2 amended: `calculate_level` is `min(floor(points / 50), 4)`; the result
lies in [0, 4] and negative-or-zero maps to a nonpositive value only in the
sense that `calculate_level 0 = 0` and nonnegative points stay in range, while
strictly negative points yield `floor(points / 50)`, a strictly negative
level rather than 0. -/
theorem c2_level_formula (p : Int) :
    calculate_level p = min (Int.fdiv p 50) 4 ∧
    (0 ≤ p → 0 ≤ calculate_level p ∧ calculate_level p ≤ 4) ∧
    calculate_level 0 = 0 ∧
    (p < 0 → calculate_level p = Int.fdiv p 50 ∧ calculate_level p < 0) := by
  refine ⟨rfl, fun hp => ⟨?_, ?_⟩, by decide, fun hp => ?_⟩
  · have h1 : 0 ≤ Int.fdiv p 50 := by
      rw [Int.fdiv_eq_ediv _ (by norm_num)]
      exact Int.ediv_nonneg hp (by norm_num)
    have h2 : (0 : Int) ≤ 4 := by norm_num
    exact le_min h1 h2
  · exact min_le_right _ _
  · have hneg : Int.fdiv p 50 < 0 := by
      rw [Int.fdiv_eq_ediv _ (by norm_num)]
      exact Int.ediv_neg' hp (by norm_num)
    constructor
    · show min (Int.fdiv p 50) ((LEVELS.length : Int) - 1) = Int.fdiv p 50
      have : (LEVELS.length : Int) - 1 = 4 := by decide
      rw [this]
      exact min_eq_left (by omega)
    · show min (Int.fdiv p 50) ((LEVELS.length : Int) - 1) < 0
      have : (LEVELS.length : Int) - 1 = 4 := by decide
      rw [this]
      omega

/-- Witness for C2 amended, at points 100 (in range) and -7 (negative level). -/
theorem c2_level_formula_witness :
    (0 ≤ calculate_level 100 ∧ calculate_level 100 ≤ 4) ∧
    (calculate_level (-7) = Int.fdiv (-7) 50 ∧ calculate_level (-7) < 0) :=
  ⟨(c2_level_formula 100).2.1 (by decide), (c2_level_formula (-7)).2.2.2 (by decide)⟩

theorem pyIndex_ne_level0 (l : Int) (h1 : -4 ≤ l) (h2 : l ≤ -1) :
    pyIndex LEVELS l ≠ LEVELS.get? 0 := by
  interval_cases l <;> decide

/-- Counterexample to C10: at points -250 the level is -5 and the Python
lookup `LEVELS[-5]` wraps around to element 0 — exactly level 0's emoji, so
the lookup does not differ from level 0's emoji on all of [-250, -1]. -/
theorem c10_counterexample :
    calculate_level (-250) = -5 ∧ levelEmojiLookup (-250) = LEVELS.get? 0 := by decide

/-- C10 amended: the level-emoji lookup of `karma_check` is not total: for
points ≤ -251 the level is ≤ -6 and `LEVELS[level]` is out of range (an
IndexError); for points in [-250, -1] the level is in [-5, -1] and negative
indexing silently yields element `len(LEVELS) + level`; on [-200, -1] that is
a different emoji than level 0's, while on [-250, -201] it coincides with
level 0's emoji. -/
theorem c10_level_lookup (p : Int) :
    (p ≤ -251 → calculate_level p ≤ -6 ∧ levelEmojiLookup p = none) ∧
    (-250 ≤ p → p ≤ -1 →
      calculate_level p = Int.fdiv p 50 ∧
      -5 ≤ calculate_level p ∧ calculate_level p ≤ -1 ∧
      levelEmojiLookup p = LEVELS.get? ((LEVELS.length : Int) + calculate_level p).toNat ∧
      (-200 ≤ p → levelEmojiLookup p ≠ LEVELS.get? 0)) := by
  have hL : (LEVELS.length : Int) = 5 := by decide
  have h4 : (LEVELS.length : Int) - 1 = 4 := by decide
  constructor
  · intro hp
    have hm := fdiv50_mono hp
    have he : Int.fdiv (-251) 50 = -6 := by decide
    have hlvl : calculate_level p ≤ -6 := by
      show min (Int.fdiv p 50) ((LEVELS.length : Int) - 1) ≤ -6
      omega
    refine ⟨hlvl, ?_⟩
    show pyIndex LEVELS (calculate_level p) = none
    unfold pyIndex
    rw [if_neg (by omega), if_neg (by omega)]
  · intro hp1 hp2
    have ha := fdiv50_mono hp1
    have hb := fdiv50_mono hp2
    have ha' : Int.fdiv (-250) 50 = -5 := by decide
    have hb' : Int.fdiv (-1) 50 = -1 := by decide
    have hlvl_eq : calculate_level p = Int.fdiv p 50 := by
      show min (Int.fdiv p 50) ((LEVELS.length : Int) - 1) = Int.fdiv p 50
      rw [h4]
      exact min_eq_left (by omega)
    refine ⟨hlvl_eq, by omega, by omega, ?_, ?_⟩
    · show pyIndex LEVELS (calculate_level p) = _
      unfold pyIndex
      rw [if_neg (by omega), if_pos (by omega)]
    · intro hp3
      have hc := fdiv50_mono hp3
      have hc' : Int.fdiv (-200) 50 = -4 := by decide
      exact pyIndex_ne_level0 (calculate_level p) (by omega) (by omega)

/-- Witness for C10 amended, at points -300 (out-of-range lookup) and -150
(wraparound to a non-level-0 emoji). -/
theorem c10_level_lookup_witness :
    (calculate_level (-300) ≤ -6 ∧ levelEmojiLookup (-300) = none) ∧
    levelEmojiLookup (-150) ≠ LEVELS.get? 0 :=
  ⟨(c10_level_lookup (-300)).1 (by decide),
   ((c10_level_lookup (-150)).2 (by decide) (by decide)).2.2.2.2 (by decide)⟩

/-! ### The reaction handler -/

/-- Counterexample to C3: a reaction by the message's own author is ignored —
`on_raw_reaction_add` returns (src/bot.py) before touching the ledger when
`payload.user_id == message.author.id`, so no +1 is granted. -/
theorem c3_counterexample :
    on_raw_reaction_add ⟨[], [], []⟩ 1 1 7 "👍" 0 = (⟨[], [], []⟩, false) ∧
    getPoints (on_raw_reaction_add ⟨[], [], []⟩ 1 1 7 "👍" 0).1.karma 1 7 = 0 := by decide

/-- C3 amended: for a recognized emoji, a reaction by the author itself
changes nothing (the handler does have a self-target check), while a reaction
by anyone else grants the author +1 without consulting any cooldown (the
cooldown map is untouched and never read). -/
theorem c3_reaction_grant (st : BotState) (reactor author guild : Nat) (emoji : String)
    (now : Int) (hmem : REACTIONS.contains emoji = true) :
    (reactor = author → on_raw_reaction_add st reactor author guild emoji now = (st, false)) ∧
    (reactor ≠ author →
      getPoints (on_raw_reaction_add st reactor author guild emoji now).1.karma author guild =
        getPoints st.karma author guild + 1 ∧
      (on_raw_reaction_add st reactor author guild emoji now).1.cooldowns = st.cooldowns) := by
  constructor
  · intro h
    subst h
    simp [on_raw_reaction_add, hmem]
  · intro h
    have hb : (reactor == author) = false := by
      simp [h]
    have hmem2 : emoji ∈ REACTIONS := by
      simpa using hmem
    have heq : (on_raw_reaction_add st reactor author guild emoji now).1 =
        (update_karma st author guild 1 (some ("Received " ++ emoji ++ " reaction")) now).1 := by
      simp [on_raw_reaction_add, hmem2, hb]
    rw [heq]
    exact ⟨getPoints_upsert_self author guild 1 now st.karma, rfl⟩

/-- Witness for C3 amended: user 2 reacting with 👍 to user 1's message from
the empty state grants user 1 one point and leaves the cooldown map empty. -/
theorem c3_reaction_grant_witness :
    getPoints (on_raw_reaction_add ⟨[], [], []⟩ 2 1 7 "👍" 0).1.karma 1 7 =
      getPoints (⟨[], [], []⟩ : BotState).karma 1 7 + 1 ∧
    (on_raw_reaction_add ⟨[], [], []⟩ 2 1 7 "👍" 0).1.cooldowns =
      (⟨[], [], []⟩ : BotState).cooldowns :=
  (c3_reaction_grant ⟨[], [], []⟩ 2 1 7 "👍" 0 (by decide)).2 (by decide)

/-- Counterexample to C5: with user 1 holding 1 point, a reaction grant makes
the total 2; the DM is sent (`new_level > new_level - 1` always holds when
`new_karma > 1`) although `calculate_level 2 = calculate_level 1` — no level
boundary is crossed. -/
theorem c5_counterexample :
    (on_raw_reaction_add ⟨[⟨1, 7, 1, 0⟩], [], []⟩ 2 1 7 "👍" 0).2 = true ∧
    ¬(calculate_level 2 > calculate_level (2 - 1)) := by decide

/-- C5 amended: for a recognized emoji and a reactor distinct from the
author, the level-up DM is sent iff the resulting total exceeds 1 — because
`old_level` is computed as `new_level - 1` whenever `new_karma > 1`, the
comparison `new_level > old_level` then always holds; it is not a level
boundary test. -/
theorem c5_levelup_flag (st : BotState) (reactor author guild : Nat) (emoji : String)
    (now : Int) (hmem : REACTIONS.contains emoji = true) (hne : reactor ≠ author) :
    (on_raw_reaction_add st reactor author guild emoji now).2 =
      decide (getPoints st.karma author guild + 1 > 1) := by
  have hb : (reactor == author) = false := by
    simp [hne]
  have hnew : (update_karma st author guild 1
        (some ("Received " ++ emoji ++ " reaction")) now).2.new_karma =
      getPoints st.karma author guild + 1 :=
    getPoints_upsert_self author guild 1 now st.karma
  have heq : (on_raw_reaction_add st reactor author guild emoji now).2 =
      (let p := update_karma st author guild 1 (some ("Received " ++ emoji ++ " reaction")) now
       let new_level := calculate_level p.2.new_karma
       let old_level := if p.2.new_karma > 1 then new_level - 1 else 0
       decide (new_level > old_level)) := by
    have hmem2 : emoji ∈ REACTIONS := by
      simpa using hmem
    simp [on_raw_reaction_add, hmem2, hb]
  rw [heq]
  simp only [hnew]
  by_cases hgt : getPoints st.karma author guild + 1 > 1
  · simp [hgt]
  · simp [hgt]
    have hnp : Int.fdiv (getPoints st.karma author guild + 1) 50 ≤ 0 :=
      fdiv50_nonpos (by omega)
    show min (Int.fdiv (getPoints st.karma author guild + 1) 50) ((LEVELS.length : Int) - 1) ≤ 0
    have h4 : (LEVELS.length : Int) - 1 = 4 := by decide
    omega

/-- Witness for C5 amended: from the empty state the resulting total is 1,
so no DM is sent. -/
theorem c5_levelup_flag_witness :
    (on_raw_reaction_add ⟨[], [], []⟩ 2 1 7 "👍" 0).2 =
      decide (getPoints (⟨[], [], []⟩ : BotState).karma 1 7 + 1 > 1) :=
  c5_levelup_flag ⟨[], [], []⟩ 2 1 7 "👍" 0 (by decide) (by decide)

/-! ### The leaderboard -/

/-- Counterexample to C4: the leaderboard query is `ORDER BY karma DESC` with
no secondary sort key, so two users tied at 5 points are returned in table
order (user 2 first, inserted earlier), not by user id ascending. -/
theorem c4_counterexample :
    get_leaderboard ⟨[⟨2, 7, 5, 0⟩, ⟨1, 7, 5, 0⟩], [], []⟩ 7 10 = [(2, 5), (1, 5)] ∧
    get_leaderboard ⟨[⟨2, 7, 5, 0⟩, ⟨1, 7, 5, 0⟩], [], []⟩ 7 10 ≠ [(1, 5), (2, 5)] := by
  decide

/-- C4 amended: `get_leaderboard` returns entries of the requested community
sorted by points non-increasing and truncated to `limit`; the order of ties
is the table order — the query specifies no tie-break, in particular not
user id ascending. -/
theorem c4_leaderboard_sorted (st : BotState) (guild : Nat) (limit : Nat) :
    List.Pairwise (fun a b : Nat × Int => b.2 ≤ a.2) (get_leaderboard st guild limit) ∧
    (get_leaderboard st guild limit).length ≤ limit ∧
    ∀ e ∈ get_leaderboard st guild limit, ∃ r ∈ st.karma,
      r.guild_id = guild ∧ e = (r.user_id, r.karma) := by
  refine ⟨?_, ?_, ?_⟩
  · have hs : List.Pairwise karmaDescR
        (List.insertionSort karmaDescR (st.karma.filter (fun r => r.guild_id == guild))) :=
      List.sorted_insertionSort karmaDescR _
    have hm : List.Pairwise (fun a b : Nat × Int => b.2 ≤ a.2)
        ((List.insertionSort karmaDescR
            (st.karma.filter (fun r => r.guild_id == guild))).map
          (fun r => (r.user_id, r.karma))) :=
      List.Pairwise.map _ (fun a b h => h) hs
    exact List.Pairwise.sublist (List.take_sublist _ _) hm
  · rw [get_leaderboard, List.length_take]
    exact min_le_left _ _
  · intro e he
    have he2 : e ∈ (List.insertionSort karmaDescR
        (st.karma.filter (fun r => r.guild_id == guild))).map
          (fun r => (r.user_id, r.karma)) :=
      (List.take_sublist _ _).subset he
    obtain ⟨r, hr, hre⟩ := List.mem_map.mp he2
    have hr2 : r ∈ st.karma.filter (fun r => r.guild_id == guild) :=
      (List.perm_insertionSort karmaDescR _).subset hr
    have hr3 := List.mem_filter.mp hr2
    exact ⟨r, hr3.1, by simpa using hr3.2, hre.symm⟩

/-- Witness for C4 amended: the tied entry (2, 5) of the counterexample state
is indeed backed by a table row of community 7. -/
theorem c4_leaderboard_sorted_witness :
    ∃ r ∈ (⟨[⟨2, 7, 5, 0⟩, ⟨1, 7, 5, 0⟩], [], []⟩ : BotState).karma,
      r.guild_id = 7 ∧ ((2, 5) : Nat × Int) = (r.user_id, r.karma) :=
  (c4_leaderboard_sorted ⟨[⟨2, 7, 5, 0⟩, ⟨1, 7, 5, 0⟩], [], []⟩ 7 10).2.2 (2, 5) (by decide)

/-! ### Commands: give, remove, admin set, purge -/

/-- C6: a self-targeted `karma give` or `karma remove` is rejected before any
state is touched: the whole state (ledger, history and cooldown map) is
returned unchanged with the self-target outcome. -/
theorem c6_self_target (st : BotState) (actor guild : Nat) (amount : Int)
    (reason : Option String) (now : Int) (h1 : 1 ≤ amount) (h2 : amount ≤ 10) :
    karma_give st actor actor guild amount reason now = (st, .selfTarget) ∧
    karma_remove st actor actor guild amount reason now = (st, .selfTarget) := by
  constructor
  · simp [karma_give]
  · simp [karma_remove]

/-- Witness for C6 at actor 1, amount 5, on the empty state. -/
theorem c6_self_target_witness :
    karma_give ⟨[], [], []⟩ 1 1 7 5 none 0 = (⟨[], [], []⟩, .selfTarget) ∧
    karma_remove ⟨[], [], []⟩ 1 1 7 5 none 0 = (⟨[], [], []⟩, .selfTarget) :=
  c6_self_target ⟨[], [], []⟩ 1 7 5 none 0 (by decide) (by decide)

theorem lookupCooldown_setCooldown_self (cds : List (Nat × Int)) (a : Nat) (t : Int) :
    lookupCooldown (setCooldown a t cds) a = some t := by
  induction cds with
  | nil => simp [setCooldown, lookupCooldown]
  | cons p ps ih =>
    by_cases h : (p.1 == a) = true
    · simp [setCooldown, lookupCooldown, h]
    · have h2 : (p.1 == a) = false := by
        simpa using h
      simp only [setCooldown]
      rw [if_neg h]
      simp only [lookupCooldown, List.find?] at ih ⊢
      rw [h2]
      exact ih

theorem karma_give_cooldown_branch (s : BotState) (actor target guild : Nat) (amount : Int)
    (reason : Option String) (now : Int) (rem : Int) (hne : target ≠ actor)
    (hchk : check_cooldown s.cooldowns actor now = some rem) :
    karma_give s actor target guild amount reason now = (s, .cooldownActive rem) := by
  simp [karma_give, hne, hchk]

theorem karma_give_success_branch (s : BotState) (actor target guild : Nat) (amount : Int)
    (reason : Option String) (now : Int) (hne : target ≠ actor)
    (hchk : check_cooldown s.cooldowns actor now = none) :
    isSuccess (karma_give s actor target guild amount reason now).2 = true ∧
    (karma_give s actor target guild amount reason now).1.cooldowns =
      setCooldown actor now s.cooldowns := by
  constructor
  · simp [karma_give, hne, hchk, isSuccess]
  · simp [karma_give, hne, hchk, update_karma]

/-- C7: after a successful `give` by an actor at time `t1`, a second `give`
by the same actor at time `t2` fails with the cooldown outcome carrying the
remaining wait `60 - (t2 - t1)` and leaves the state unchanged whenever
`t2 - t1 < 60`, and succeeds once `60 ≤ t2 - t1`. -/
theorem c7_cooldown_gate (st : BotState) (actor target1 target2 guild : Nat)
    (amount1 amount2 : Int) (r1 r2 : Option String) (t1 t2 : Int)
    (hc : check_cooldown st.cooldowns actor t1 = none)
    (h1 : target1 ≠ actor) (h2 : target2 ≠ actor) :
    isSuccess (karma_give st actor target1 guild amount1 r1 t1).2 = true ∧
    (t2 - t1 < 60 →
      karma_give (karma_give st actor target1 guild amount1 r1 t1).1 actor target2 guild
          amount2 r2 t2 =
        ((karma_give st actor target1 guild amount1 r1 t1).1,
          .cooldownActive (60 - (t2 - t1)))) ∧
    (60 ≤ t2 - t1 →
      isSuccess (karma_give (karma_give st actor target1 guild amount1 r1 t1).1 actor target2
          guild amount2 r2 t2).2 = true) := by
  have hfirst := karma_give_success_branch st actor target1 guild amount1 r1 t1 h1 hc
  refine ⟨hfirst.1, ?_, ?_⟩
  · intro hlt
    apply karma_give_cooldown_branch _ _ _ _ _ _ _ _ h2
    rw [hfirst.2]
    simp [check_cooldown, lookupCooldown_setCooldown_self, COOLDOWN_SECONDS, hlt]
  · intro hge
    refine (karma_give_success_branch _ _ _ _ _ _ _ h2 ?_).1
    rw [hfirst.2]
    simp [check_cooldown, lookupCooldown_setCooldown_self, COOLDOWN_SECONDS]
    omega

/-- Witness for C7: actor 1 gives to user 2 at time 0; a second give to
user 3 at time 30 is rejected with 30 seconds of wait remaining, while at
time 100 it succeeds. -/
theorem c7_cooldown_gate_witness :
    karma_give (karma_give ⟨[], [], []⟩ 1 2 7 1 none 0).1 1 3 7 1 none 30 =
      ((karma_give ⟨[], [], []⟩ 1 2 7 1 none 0).1, .cooldownActive (60 - ((30 : Int) - 0))) ∧
    isSuccess (karma_give (karma_give ⟨[], [], []⟩ 1 2 7 1 none 0).1 1 3 7 1 none 100).2 =
      true :=
  ⟨(c7_cooldown_gate ⟨[], [], []⟩ 1 2 3 7 1 1 none none 0 30
      (by decide) (by decide) (by decide)).2.1 (by decide),
   (c7_cooldown_gate ⟨[], [], []⟩ 1 2 3 7 1 1 none none 0 100
      (by decide) (by decide) (by decide)).2.2 (by decide)⟩

/-- C8: `admin_set` applies `delta = V - current` unconditionally — for every
state, including self-targets and actors under cooldown — and a `get_karma`
immediately afterwards reads back exactly `V`. -/
theorem c8_admin_set_roundtrip (st : BotState) (target guild : Nat) (V : Int)
    (reason : Option String) (now : Int) :
    (get_karma (admin_set st target guild V reason now).1 target guild).1 = V ∧
    (admin_set st target guild V reason now).2 = V - (get_karma st target guild).1 := by
  constructor
  · rw [get_karma_fst]
    have hk : (admin_set st target guild V reason now).1.karma =
        upsertKarma target guild (V - (get_karma st target guild).1) now st.karma := rfl
    rw [hk, getPoints_upsert_self, ← get_karma_fst]
    ring
  · rfl

/-- C9: the purge deletes exactly the history events with a timestamp older
than the 30-day cutoff (`now - 2592000` seconds) and leaves the `karma` table
(every points total and `last_updated` stamp) and the cooldown map unchanged. -/
theorem c9_purge_frame (st : BotState) (now : Int) :
    (cleanup_task st now).karma = st.karma ∧
    (cleanup_task st now).cooldowns = st.cooldowns ∧
    ∀ e : KarmaEvent, e ∈ (cleanup_task st now).karma_history ↔
      (e ∈ st.karma_history ∧ now - 2592000 ≤ e.timestamp) := by
  refine ⟨rfl, rfl, fun e => ?_⟩
  simp [cleanup_task, List.mem_filter, not_lt]

end DisKarm
